import Mathlib

/-!
Shallow embedding of the FBA supply-planner core pipeline (`app.py`).

Rows of the two input tables are modelled as structures; pandas group-by
aggregations become filter/map/sum over lists; numeric columns are modelled
as exact rationals.  Each definition mirrors one expression of the source:
the pandas `replace(0, 1)` becomes an if-then-else on exact zero, `clip` is
`max`, `round(0)` is round-half-to-even (numpy rounding), the left merges
followed by `fillna(0)` become lookups defaulting to `0`, and the grouping
keys of a `groupby` become the deduplicated list of key tuples.
-/

namespace FBA

/-- One normalized sales (MTR) row after the Schema Normalizer:
`Sku`, `Fulfillment Type`, `Ship To State`, `Ship From State`, `Quantity`,
`Shipment Date` (rows with unparseable dates are already dropped; dates are
modelled as day numbers). -/
structure SalesRow where
  sku : String
  ft : String
  shipTo : String
  shipFrom : String
  qty : ℚ
  date : ℕ
deriving DecidableEq

/-- One normalized inventory-ledger row: `Sku` (from ASIN/MSKU/Sku),
`Fulfillment Type`, `Ship From State`, `Warehouse Code`,
`Ending Warehouse Balance`, and the ledger snapshot date.  The source
pipeline never parses or uses the snapshot date; it is carried here so that
the spec's most-recent-snapshot reading can be stated against the code. -/
structure InvRow where
  sku : String
  ft : String
  shipFrom : String
  wh : String
  balance : ℚ
  asOf : ℕ
deriving DecidableEq

/-- Minimum of a list of dates (pandas `.min()`); junk value 0 on []. -/
def listMin : List ℕ → ℕ
  | [] => 0
  | x :: xs => xs.foldl Nat.min x

/-- Maximum of a list of dates (pandas `.max()`); junk value 0 on []. -/
def listMax : List ℕ → ℕ
  | [] => 0
  | x :: xs => xs.foldl Nat.max x

/-- The history-window selection of `app.py`: `basis = none` is
"Total Sales (full history)"; `basis = some w` is "Last w Days".
Returns the selected sales subset together with `history_window_days`.
`uploaded_sales_days = (max - min).days + 1`, floored at 1; a rolling
window keeps rows with `Shipment Date >= overall_max - (w - 1)` and falls
back to full history when that filter is empty. -/
def histSelect (basis : Option ℕ) (sales : List SalesRow) :
    List SalesRow × ℕ :=
  let dates := sales.map SalesRow.date
  let uploaded := Nat.max (listMax dates - listMin dates + 1) 1
  match basis with
  | none => (sales, uploaded)
  | some w =>
      let cutoff := listMax dates - (w - 1)
      let filtered := sales.filter (fun r => cutoff ≤ r.date)
      if filtered.isEmpty then (sales, uploaded)
      else
        let fd := filtered.map SalesRow.date
        (filtered, Nat.max (listMax fd - listMin fd + 1) 1)

/-- Embeds `hist_sales_ft`: per (Sku, Fulfillment Type) total quantity over the
selected history rows. -/
def histTotal (rows : List SalesRow) (k : String × String) : ℚ :=
  ((rows.filter (fun r => r.sku = k.1 ∧ r.ft = k.2)).map SalesRow.qty).sum

/-- Embeds `Avg Daily Sale (Channel)` = `History Sales (Channel)` divided by
`History Window Days (Used)`. -/
def planAvg (basis : Option ℕ) (sales : List SalesRow)
    (k : String × String) : ℚ :=
  histTotal (histSelect basis sales).1 k / ((histSelect basis sales).2 : ℚ)

/-- Embeds `sku_stock_all`: inventory grouped by `Sku`, summing
`Ending Warehouse Balance` over every ledger row of the SKU. -/
def stockBySku (inv : List InvRow) (sku : String) : ℚ :=
  ((inv.filter (fun r => r.sku = sku)).map InvRow.balance).sum

/-- Embeds `stock_by_ft`: inventory grouped by (Sku, Fulfillment Type), summing
`Ending Warehouse Balance`. -/
def stockByFt (inv : List InvRow) (k : String × String) : ℚ :=
  ((inv.filter (fun r => r.sku = k.1 ∧ r.ft = k.2)).map InvRow.balance).sum

/-- Embeds `stock_by_site`: inventory grouped by
(Sku, Fulfillment Type, Ship From State, Warehouse Code). -/
def stockBySite (inv : List InvRow)
    (k : String × String × String × String) : ℚ :=
  ((inv.filter (fun r =>
      r.sku = k.1 ∧ r.ft = k.2.1 ∧ r.shipFrom = k.2.2.1 ∧ r.wh = k.2.2.2)
    ).map InvRow.balance).sum

/-- Embeds `Days of Cover` = current stock divided by the average daily sale with
`.replace(0, 1)` applied: a denominator that is exactly `0` becomes `1`;
every other value (fractional ones included) is used unchanged. -/
def daysOfCover (cur avg : ℚ) : ℚ :=
  cur / (if avg = 0 then 1 else avg)

/-- Embeds `classify_channel`: the health-tag if-chain of `app.py`, taking the
already-computed `Days of Cover` column as `cover`. -/
def classifyChannel (avg cur cover d : ℚ) : String :=
  if avg ≤ 0 ∧ cur > 0 then "Dead / No Sales"
  else if cover < d * (1/2) then "At Risk (Low Stock)"
  else if cover > d * 2 then "Excess / Slow"
  else "Healthy"

/-- numpy/pandas `round(0)`: round to the nearest integer, ties to even. -/
def roundHalfEven (q : ℚ) : ℤ :=
  if q - Int.floor q < 1/2 then Int.floor q
  else if q - Int.floor q > 1/2 then Int.floor q + 1
  else if Int.floor q % 2 = 0 then Int.floor q else Int.floor q + 1

/-- Embeds `Base Requirement (Channel)` = avg daily sale × planning days. -/
def baseRequirement (avg d : ℚ) : ℚ := avg * d

/-- Embeds `Safety Stock (Channel)` = z × demand stddev × sqrt(planning days);
the stddev and square-root factors enter as already-computed scalars. -/
def safetyStock (z sd sqrtD : ℚ) : ℚ := z * sd * sqrtD

/-- Embeds `Required Stock (Channel)` = base requirement + safety stock. -/
def requiredStock (avg d safety : ℚ) : ℚ := avg * d + safety

/-- Embeds `Recommended Dispatch (Channel)` =
`(required - current).clip(lower=0).round(0)`. -/
def recommendedDispatch (req cur : ℚ) : ℚ :=
  (roundHalfEven (max (req - cur) 0) : ℤ)

/-- Embeds `compute_share`: proportional share when the sibling total is
positive, NaN (modelled as `none`) otherwise. -/
def computeShare (total histSite : ℚ) : Option ℚ :=
  if total > 0 then some (histSite / total) else none

/-- Embeds `Demand Share (Site)` after the `fillna(1.0 / count_sites)` step:
`siblings` is the group's `History Sales (Site)` column, whose length is
the `count` transform (its `replace(0, 1)` becomes `max length 1`). -/
def demandShare (siblings : List ℚ) (histSite : ℚ) : ℚ :=
  match computeShare siblings.sum histSite with
  | some s => s
  | none => 1 / (Nat.max siblings.length 1 : ℚ)

/-- Embeds `daily_sales_ft`: the per-day demand series of one (Sku, Fulfillment
Type) group — one summed quantity per distinct shipment date. -/
def dailySeries (rows : List SalesRow) (k : String × String) : List ℚ :=
  let grp := rows.filter (fun r => r.sku = k.1 ∧ r.ft = k.2)
  ((grp.map SalesRow.date).dedup).map
    (fun d => ((grp.filter (fun r => r.date = d)).map SalesRow.qty).sum)

/-- Sample mean-square deviation over n − 1 (pandas `std(ddof=1)` squared);
only meaningful for lists of length ≥ 2. -/
def sampleVar (l : List ℚ) : ℚ :=
  (l.map (fun x => (x - l.sum / (l.length : ℚ)) ^ 2)).sum /
    ((l.length : ℚ) - 1)

/-- pandas `.std()`: NaN (`none`) on fewer than two observations. -/
noncomputable def stdOrNaN (l : List ℚ) : Option ℝ :=
  if l.length < 2 then none else some (Real.sqrt (sampleVar l))

/-- Embeds `Demand StdDev (Channel)` after `pd.to_numeric(...).fillna(0.0)`:
the NaN of a short series becomes `0`. -/
noncomputable def demandStdDev (rows : List SalesRow)
    (k : String × String) : ℝ :=
  (stdOrNaN (dailySeries rows k)).getD 0

/-- The (Sku, Fulfillment Type) keys present in a sales subset
(`hist_sales_ft`'s index). -/
def histKeys (rows : List SalesRow) : List (String × String) :=
  (rows.map (fun r => (r.sku, r.ft))).dedup

/-- The (Sku, Fulfillment Type) keys present in inventory
(`stock_by_ft`'s index). -/
def invKeys (inv : List InvRow) : List (String × String) :=
  (inv.map (fun r => (r.sku, r.ft))).dedup

/-- Embeds `base_keys`: union (concat + drop_duplicates) of the sales keys of the
selected history and the inventory keys. -/
def baseKeys (rows : List SalesRow) (inv : List InvRow) :
    List (String × String) :=
  (histKeys rows ++ invKeys inv).dedup

/-- Left merge of `stock_by_ft` onto the plan: `none` models the NaN of a
key absent from inventory. -/
def lookupStockFt (inv : List InvRow) (k : String × String) : Option ℚ :=
  if k ∈ invKeys inv then some (stockByFt inv k) else none

/-- Embeds `Current Stock (Channel)` after `fillna(0)`. -/
def currentStockChannel (inv : List InvRow) (k : String × String) : ℚ :=
  (lookupStockFt inv k).getD 0

/-- The (Sku, Fulfillment Type, Ship From State, Warehouse Code) keys of
`stock_by_site` — the rows of the site plan. -/
def siteKeys (inv : List InvRow) :
    List (String × String × String × String) :=
  (inv.map (fun r => (r.sku, r.ft, r.shipFrom, r.wh))).dedup

/-- Embeds `site_sales_from` looked up for one site row: history quantity summed
over sales with the row's (Sku, Fulfillment Type, Ship From State); an
absent key sums to 0, matching the left merge + `fillna(0.0)`. -/
def siteHistSales (rows : List SalesRow) (sku ft sf : String) : ℚ :=
  ((rows.filter (fun r => r.sku = sku ∧ r.ft = ft ∧ r.shipFrom = sf)).map
    SalesRow.qty).sum

/-- Embeds `site_plan` restricted to its key and `History Sales (Site)` columns:
one row per site key of the inventory. -/
def sitePlanRows (inv : List InvRow) (rows : List SalesRow) :
    List ((String × String × String × String) × ℚ) :=
  (siteKeys inv).map (fun k => (k, siteHistSales rows k.1 k.2.1 k.2.2.1))

/-- Embeds `Total Site History Sales`: group-by (Sku, Fulfillment Type) sum of
`History Sales (Site)` over the site-plan rows. -/
def totalSiteHistory (inv : List InvRow) (rows : List SalesRow)
    (sku ft : String) : ℚ :=
  (((siteKeys inv).filter (fun k => k.1 = sku ∧ k.2.1 = ft)).map
    (fun k => siteHistSales rows k.1 k.2.1 k.2.2.1)).sum

/-- The vendor-code table mapping raw fulfillment values to FBA/FBM
(`ft_map` / `ft_map_inv`, identical in the source). -/
def ftMap : List (String × String) :=
  [("AFN", "FBA"), ("FBA", "FBA"), ("AMAZON_FULFILLED", "FBA"),
   ("MFN", "FBM"), ("FBM", "FBM"), ("MERCHANT_FULFILLED", "FBM")]

/-- Normalization of one raw fulfillment cell:
`.str.upper().str.strip()` then `.map(ft_map).fillna(raw)`. -/
def normalizeFtValue (raw : String) : String :=
  let u := raw.toUpper.trim
  (ftMap.lookup u).getD u

/-- Fulfillment type assigned to a sales row: the normalized cell when a
channel column was detected (`some raw`), the constant `"FBA"` when no
such column exists (`none`). -/
def assignFtSales (cell : Option String) : String :=
  match cell with
  | some raw => normalizeFtValue raw
  | none => "FBA"

/-- Fulfillment type assigned to an inventory row, with the same default. -/
def assignFtInv (cell : Option String) : String :=
  match cell with
  | some raw => normalizeFtValue raw
  | none => "FBA"

/-- Modelled from the spec (§4.4 Stock Position Resolver), not from the
source: the ledger date of the most recent snapshot of a
(sku, warehouse_code) pair. -/
def specLatestDate (inv : List InvRow) (sku wh : String) : ℕ :=
  listMax ((inv.filter (fun r => r.sku = sku ∧ r.wh = wh)).map InvRow.asOf)

/-- Modelled from the spec: the ending balance contributed by one
(sku, warehouse_code) pair — only its most recent snapshot counts. -/
def specPairStock (inv : List InvRow) (sku wh : String) : ℚ :=
  ((inv.filter (fun r =>
      r.sku = sku ∧ r.wh = wh ∧ r.asOf = specLatestDate inv sku wh)).map
    InvRow.balance).sum

/-- Modelled from the spec: SKU-level current stock as the sum, across the
SKU's warehouses, of each pair's most-recent ending balance. -/
def specStockSku (inv : List InvRow) (sku : String) : ℚ :=
  ((((inv.filter (fun r => r.sku = sku)).map InvRow.wh).dedup).map
    (fun wh => specPairStock inv sku wh)).sum

/-- C6: for every group, `avg_daily_sale` is exactly the history total
divided by `history_window_days`; the window length is always ≥ 1, being
the (max − min + 1) span of the selected subset's dates floored at 1, so
the division never divides by zero (stated as exact recovery:
avg × window = total). -/
theorem avg_daily_sale_exact (basis : Option ℕ) (sales : List SalesRow)
    (k : String × String) :
    1 ≤ (histSelect basis sales).2 ∧
    (histSelect basis sales).2 =
      Nat.max (listMax ((histSelect basis sales).1.map SalesRow.date) -
        listMin ((histSelect basis sales).1.map SalesRow.date) + 1) 1 ∧
    planAvg basis sales k * ((histSelect basis sales).2 : ℚ) =
      histTotal (histSelect basis sales).1 k := by
  have hshape : 1 ≤ (histSelect basis sales).2 ∧
      (histSelect basis sales).2 =
        Nat.max (listMax ((histSelect basis sales).1.map SalesRow.date) -
          listMin ((histSelect basis sales).1.map SalesRow.date) + 1) 1 := by
    rcases basis with _ | w
    · exact ⟨Nat.le_max_right _ _, rfl⟩
    · by_cases h : (sales.filter (fun r =>
          listMax (sales.map SalesRow.date) - (w - 1) ≤ r.date)).isEmpty
      · simp only [histSelect, h, if_true]
        exact ⟨Nat.le_max_right _ _, by simp⟩
      · simp only [histSelect, h, if_false]
        exact ⟨Nat.le_max_right _ _, by simp⟩
  refine ⟨hshape.1, hshape.2, ?_⟩
  have hne : ((histSelect basis sales).2 : ℚ) ≠ 0 := by
    exact_mod_cast Nat.one_le_iff_ne_zero.mp hshape.1
  rw [planAvg, div_mul_cancel₀ _ hne]

/-- C2 counterexample: `days_of_cover` does NOT use a denominator floored
at 1 — for `avg_daily_sale = 1/2` and `current_stock = 1` the code divides
by `1/2` itself (giving 2), not by `max(1/2, 1) = 1`. -/
theorem daysOfCover_not_floored :
    daysOfCover 1 (1/2) ≠ 1 / max ((1:ℚ)/2) 1 := by
  norm_num [daysOfCover]

/-- C2 (amended): `days_of_cover` equals current stock divided by the
average daily sale with only an exactly-zero value replaced by 1; every
nonzero value — fractional values strictly between 0 and 1 included — is
used unchanged as the denominator (stated with exact recovery for the
nonzero case). -/
theorem daysOfCover_replace_zero (cur avg : ℚ) :
    (avg = 0 → daysOfCover cur avg = cur) ∧
    (avg ≠ 0 → daysOfCover cur avg = cur / avg ∧
      daysOfCover cur avg * avg = cur) := by
  constructor
  · intro h; simp [daysOfCover, h]
  · intro h
    refine ⟨by simp [daysOfCover, h], ?_⟩
    simp only [daysOfCover, h, if_false]
    exact div_mul_cancel₀ _ h

/-- Witness for C2's amended theorem at current stock 3 with average daily
sales 0 and 1/2. -/
theorem daysOfCover_replace_zero_witness :
    daysOfCover 3 0 = 3 ∧ daysOfCover 3 (1/2) = 3 / (1/2) :=
  ⟨(daysOfCover_replace_zero 3 0).1 rfl,
   ((daysOfCover_replace_zero 3 (1/2)).2 (by norm_num)).1⟩

/-- C3: the health tag is decided by a first-match-wins chain —
"Dead / No Sales" when avg ≤ 0 and stock > 0, else "At Risk (Low Stock)"
when cover < 0.5 × horizon, else "Excess / Slow" when cover > 2 × horizon,
else "Healthy"; in particular avg = 0, stock = 50, horizon = 20 is tagged
"Dead / No Sales" although its cover (50) exceeds the excess threshold. -/
theorem healthTag_priority (avg cur d : ℚ) :
    (avg ≤ 0 ∧ 0 < cur →
      classifyChannel avg cur (daysOfCover cur avg) d = "Dead / No Sales") ∧
    (¬(avg ≤ 0 ∧ 0 < cur) → daysOfCover cur avg < d * (1/2) →
      classifyChannel avg cur (daysOfCover cur avg) d =
        "At Risk (Low Stock)") ∧
    (¬(avg ≤ 0 ∧ 0 < cur) → ¬(daysOfCover cur avg < d * (1/2)) →
      daysOfCover cur avg > d * 2 →
      classifyChannel avg cur (daysOfCover cur avg) d = "Excess / Slow") ∧
    (¬(avg ≤ 0 ∧ 0 < cur) → ¬(daysOfCover cur avg < d * (1/2)) →
      ¬(daysOfCover cur avg > d * 2) →
      classifyChannel avg cur (daysOfCover cur avg) d = "Healthy") ∧
    (classifyChannel 0 50 (daysOfCover 50 0) 20 = "Dead / No Sales" ∧
      daysOfCover 50 0 > 2 * 20) := by
  refine ⟨?_, ?_, ?_, ?_, ?_, ?_⟩
  · intro h; simp [classifyChannel, h]
  · intro h1 h2
    unfold classifyChannel
    rw [if_neg h1, if_pos h2]
  · intro h1 h2 h3
    unfold classifyChannel
    rw [if_neg h1, if_neg h2, if_pos h3]
  · intro h1 h2 h3
    unfold classifyChannel
    rw [if_neg h1, if_neg h2, if_neg h3]
  · norm_num [classifyChannel, daysOfCover]
  · norm_num [daysOfCover]

/-- Witness for C3 at a concrete dead-stock input (avg 0, stock 50,
horizon 20). -/
theorem healthTag_priority_witness :
    (0:ℚ) ≤ 0 ∧ (0:ℚ) < 50 ∧
    classifyChannel 0 50 (daysOfCover 50 0) 20 = "Dead / No Sales" :=
  ⟨le_refl 0, by norm_num,
   (healthTag_priority 0 50 20).1 ⟨le_refl 0, by norm_num⟩⟩

/-- Round-half-even never moves a value by more than 1/2. -/
theorem roundHalfEven_close (q : ℚ) : |(roundHalfEven q : ℚ) - q| ≤ 1/2 := by
  have h0 : (Int.floor q : ℚ) ≤ q := Int.floor_le q
  have h1 : q < (Int.floor q : ℚ) + 1 := Int.lt_floor_add_one q
  unfold roundHalfEven
  split
  · rename_i h
    rw [abs_sub_comm, abs_of_nonneg (by linarith)]
    linarith
  · split
    · rename_i h h'
      push_cast
      rw [abs_of_nonneg (by linarith)]
      linarith
    · rename_i h h'
      have hr : q - (Int.floor q : ℚ) = 1/2 := by linarith
      split
      · rw [abs_sub_comm, abs_of_nonneg (by linarith)]
        linarith
      · push_cast
        rw [abs_of_nonneg (by linarith)]
        linarith

/-- Round-half-even of a nonnegative value is nonnegative. -/
theorem roundHalfEven_nonneg (q : ℚ) (h : 0 ≤ q) :
    0 ≤ (roundHalfEven q : ℚ) := by
  have hf : (0:ℤ) ≤ Int.floor q := Int.floor_nonneg.mpr h
  unfold roundHalfEven
  split
  · exact_mod_cast hf
  · split
    · push_cast
      have : (0:ℚ) ≤ (Int.floor q : ℚ) := by exact_mod_cast hf
      linarith
    · split
      · exact_mod_cast hf
      · push_cast
        have : (0:ℚ) ≤ (Int.floor q : ℚ) := by exact_mod_cast hf
        linarith

/-- C5 counterexample: `recommended_dispatch_qty` is NOT exactly
`max(0, required_stock − current_stock)` — the code rounds the clipped
difference, so a required stock of 2/5 with zero current stock yields a
dispatch of 0, not 2/5. -/
theorem recommendedDispatch_not_exact :
    recommendedDispatch (requiredStock (2/5) 1 0) 0 ≠
      max (requiredStock (2/5) 1 0 - 0) 0 := by
  have hfl : Int.floor ((2:ℚ)/5) = 0 := by
    rw [Int.floor_eq_iff]
    norm_num
  norm_num [recommendedDispatch, requiredStock, roundHalfEven, hfl]

/-- C5 (amended): `recommended_dispatch_qty` equals
`max(0, required_stock − current_stock)` rounded to the nearest whole unit
(ties to even), where required_stock = avg × horizon + safety stock; it is
therefore always ≥ 0 and within 1/2 of the unrounded value. -/
theorem recommendedDispatch_nonneg (avg d s cur : ℚ) :
    0 ≤ recommendedDispatch (requiredStock avg d s) cur ∧
    |recommendedDispatch (requiredStock avg d s) cur -
      max (requiredStock avg d s - cur) 0| ≤ 1/2 := by
  constructor
  · exact roundHalfEven_nonneg _ (le_max_right _ _)
  · exact roundHalfEven_close (max (requiredStock avg d s - cur) 0)

/-- C4: the demand share of a site is its history divided by the sibling
total whenever that total is positive, and exactly 1/N for each of the N
sibling sites when the total is 0 — never undefined. -/
theorem demandShare_fallback (siblings : List ℚ) (histSite : ℚ) :
    (0 < siblings.sum →
      demandShare siblings histSite = histSite / siblings.sum) ∧
    (siblings.sum = 0 → ∀ i : Fin siblings.length,
      demandShare siblings (siblings.get i) =
        1 / (siblings.length : ℚ)) := by
  constructor
  · intro h
    simp [demandShare, computeShare, h]
  · intro h i
    have hpos : 0 < siblings.length := i.pos
    have hmax : Nat.max siblings.length 1 = siblings.length :=
      Nat.max_eq_left hpos
    simp [demandShare, computeShare, h, hmax]

/-- Witness for C4: proportional split on history [3, 1] and equal split
on history [0, 0]. -/
theorem demandShare_fallback_witness :
    demandShare [3, 1] 3 = 3 / 4 ∧ demandShare [0, 0] 0 = 1 / 2 := by
  constructor
  · have h := (demandShare_fallback [3, 1] 3).1 (by norm_num)
    simpa using h.trans (by norm_num)
  · have h := (demandShare_fallback [0, 0] 0).2 (by norm_num)
      ⟨0, by norm_num⟩
    simpa using h

/-- C7: a group whose per-day demand series has fewer than two distinct
sale-days gets `demand_stddev = 0` — the NaN sample deviation of a single
observation is normalized to 0, never propagated. -/
theorem demandStdDev_short (rows : List SalesRow) (k : String × String)
    (h : (dailySeries rows k).length < 2) : demandStdDev rows k = 0 := by
  simp [demandStdDev, stdOrNaN, h]

/-- Witness for C7: a single sales row gives a one-day series and a zero
standard deviation. -/
theorem demandStdDev_short_witness :
    (dailySeries [⟨"A", "FBA", "MH", "DL", 5, 0⟩] ("A", "FBA")).length < 2 ∧
    demandStdDev [⟨"A", "FBA", "MH", "DL", 5, 0⟩] ("A", "FBA") = 0 := by
  have h : (dailySeries [⟨"A", "FBA", "MH", "DL", 5, 0⟩]
      ("A", "FBA")).length < 2 := by
    simp [dailySeries]
  exact ⟨h, demandStdDev_short _ _ h⟩

/-- C8 counterexample: a SKU that appears in the sales table is dropped
from the planning output when all its sales fall outside the selected
window — with a 30-day basis, SKU "B" (sold only on day 0, latest overall
sale day 100) has no inventory row yet is absent from `base_keys`. -/
theorem baseKeys_drops_out_of_window :
    ("B", "FBA") ∈ histKeys
      [⟨"A", "FBA", "MH", "DL", 1, 100⟩, ⟨"B", "FBA", "MH", "DL", 1, 0⟩] ∧
    ("B", "FBA") ∉ baseKeys
      (histSelect (some 30)
        [⟨"A", "FBA", "MH", "DL", 1, 100⟩,
         ⟨"B", "FBA", "MH", "DL", 1, 0⟩]).1
      ([] : List InvRow) := by
  constructor
  · simp [histKeys]
  · simp [histSelect, listMax, listMin, baseKeys, histKeys, invKeys]

/-- C8 (amended): every (sku, channel) group present in the
window-selected sales used for planning — not the raw sales table — gets a
row in the planning output even with no inventory record, and its current
stock is filled in as 0. -/
theorem baseKeys_keeps_saleskeys (sales : List SalesRow)
    (inv : List InvRow) (basis : Option ℕ) (k : String × String)
    (hk : k ∈ histKeys (histSelect basis sales).1)
    (hinv : k ∉ invKeys inv) :
    k ∈ baseKeys (histSelect basis sales).1 inv ∧
    currentStockChannel inv k = 0 := by
  constructor
  · rw [baseKeys, List.mem_dedup, List.mem_append]
    exact Or.inl hk
  · simp [currentStockChannel, lookupStockFt, hinv]

/-- Witness for C8's amended theorem: SKU "B" with a sale on day 0, full
history basis, empty inventory. -/
theorem baseKeys_keeps_saleskeys_witness :
    ("B", "FBA") ∈ baseKeys
      (histSelect none [⟨"B", "FBA", "MH", "DL", 1, 0⟩]).1
      ([] : List InvRow) ∧
    currentStockChannel ([] : List InvRow) ("B", "FBA") = 0 := by
  apply baseKeys_keeps_saleskeys
  · simp [histSelect, histKeys]
  · simp [invKeys]

/-- C9: when no fulfillment-channel column is recognized, every sales row
and every inventory row is assigned channel "FBA" (not "UNKNOWN"), and
consequently every key of the channel plan and of the site plan carries
channel "FBA". -/
theorem default_channel_is_fba (sales : List SalesRow) (inv : List InvRow)
    (hs : ∀ r ∈ sales, r.ft = assignFtSales none)
    (hi : ∀ r ∈ inv, r.ft = assignFtInv none) :
    assignFtSales none = "FBA" ∧ assignFtInv none = "FBA" ∧
    (∀ k ∈ baseKeys sales inv, k.2 = "FBA") ∧
    (∀ k ∈ siteKeys inv, k.2.1 = "FBA") := by
  refine ⟨rfl, rfl, ?_, ?_⟩
  · intro k hk
    rw [baseKeys, List.mem_dedup, List.mem_append] at hk
    rcases hk with hk | hk
    · rw [histKeys, List.mem_dedup, List.mem_map] at hk
      obtain ⟨r, hr, hrk⟩ := hk
      rw [← hrk]
      exact hs r hr
    · rw [invKeys, List.mem_dedup, List.mem_map] at hk
      obtain ⟨r, hr, hrk⟩ := hk
      rw [← hrk]
      exact hi r hr
  · intro k hk
    rw [siteKeys, List.mem_dedup, List.mem_map] at hk
    obtain ⟨r, hr, hrk⟩ := hk
    rw [← hrk]
    exact hi r hr

/-- Witness for C9 on one default-channel sales row and one
default-channel inventory row. -/
theorem default_channel_is_fba_witness :
    assignFtSales none = "FBA" ∧ assignFtInv none = "FBA" ∧
    (∀ k ∈ baseKeys [⟨"A", "FBA", "MH", "DL", 1, 0⟩]
        [⟨"A", "FBA", "DL", "DEL4", 5, 0⟩], k.2 = "FBA") ∧
    (∀ k ∈ siteKeys [⟨"A", "FBA", "DL", "DEL4", 5, 0⟩],
      k.2.1 = "FBA") := by
  apply default_channel_is_fba
  · intro r hr
    simp only [List.mem_singleton] at hr
    subst hr
    rfl
  · intro r hr
    simp only [List.mem_singleton] at hr
    subst hr
    rfl

/-- C10: the site plan's rows are exactly the inventory's
(sku, channel, ship-from state, warehouse) groups; a location with sales
history but no inventory row is absent, and its sales do not enter the
sibling total used as the demand-share denominator (adding such a sales
row leaves `Total Site History Sales` unchanged). -/
theorem sitePlan_inventory_only (inv : List InvRow) (rows : List SalesRow)
    (r : SalesRow) (sku ft : String)
    (hsku : r.sku = sku) (hft : r.ft = ft)
    (hnoinv : ∀ i ∈ inv,
      ¬(i.sku = sku ∧ i.ft = ft ∧ i.shipFrom = r.shipFrom)) :
    (sitePlanRows inv rows).map Prod.fst = siteKeys inv ∧
    (∀ k, k ∈ siteKeys inv ↔
      ∃ i ∈ inv, k = (i.sku, i.ft, i.shipFrom, i.wh)) ∧
    totalSiteHistory inv (r :: rows) sku ft =
      totalSiteHistory inv rows sku ft := by
  refine ⟨?_, ?_, ?_⟩
  · simp [sitePlanRows, List.map_map, Function.comp_def]
  · intro k
    rw [siteKeys, List.mem_dedup, List.mem_map]
    constructor
    · rintro ⟨i, hi, hk⟩
      exact ⟨i, hi, hk.symm⟩
    · rintro ⟨i, hi, hk⟩
      exact ⟨i, hi, hk.symm⟩
  · rw [totalSiteHistory, totalSiteHistory]
    congr 1
    apply List.map_congr_left
    intro k hk
    rw [List.mem_filter] at hk
    obtain ⟨hkmem, hkey⟩ := hk
    rw [siteKeys, List.mem_dedup, List.mem_map] at hkmem
    obtain ⟨i, hi, hik⟩ := hkmem
    have hkey' : k.1 = sku ∧ k.2.1 = ft := by
      simpa using hkey
    rw [siteHistSales, siteHistSales, List.filter_cons]
    have hcond : ¬(r.sku = k.1 ∧ r.ft = k.2.1 ∧ r.shipFrom = k.2.2.1) := by
      rintro ⟨h1, h2, h3⟩
      apply hnoinv i hi
      refine ⟨?_, ?_, ?_⟩
      · rw [← hik] at hkey'
        exact hkey'.1
      · rw [← hik] at hkey'
        exact hkey'.2
      · rw [← hik] at h3
        exact h3.symm
    simp [hcond]

/-- Witness for C10: one inventory site in state "MH"; a sales row
shipping from "DL" (no matching inventory site) does not change the
sibling total. -/
theorem sitePlan_inventory_only_witness :
    (sitePlanRows [⟨"A", "FBA", "MH", "BOM1", 5, 0⟩] []).map Prod.fst =
      siteKeys [⟨"A", "FBA", "MH", "BOM1", 5, 0⟩] ∧
    (∀ k, k ∈ siteKeys [⟨"A", "FBA", "MH", "BOM1", 5, 0⟩] ↔
      ∃ i ∈ [⟨"A", "FBA", "MH", "BOM1", 5, 0⟩],
        k = (InvRow.sku i, InvRow.ft i, InvRow.shipFrom i, InvRow.wh i)) ∧
    totalSiteHistory [⟨"A", "FBA", "MH", "BOM1", 5, 0⟩]
      [⟨"A", "FBA", "MH", "DL", 7, 0⟩] "A" "FBA" =
    totalSiteHistory [⟨"A", "FBA", "MH", "BOM1", 5, 0⟩] [] "A" "FBA" := by
  apply sitePlan_inventory_only
  · rfl
  · rfl
  · intro i hi
    simp only [List.mem_singleton] at hi
    rw [hi]
    intro hcon
    exact absurd hcon.2.2 (by decide)

/-- C1 counterexample: current stock is NOT taken from the most recent
snapshot per (sku, warehouse) — two ledger rows for SKU "A" at warehouse
"DEL4" dated day 1 (balance 5) and day 2 (balance 10) yield a code stock of
15, while the spec's most-recent-snapshot reading yields 10. -/
theorem stock_ignores_snapshot_date :
    stockBySku [⟨"A", "FBA", "DL", "DEL4", 5, 1⟩,
      ⟨"A", "FBA", "DL", "DEL4", 10, 2⟩] "A" ≠
    specStockSku [⟨"A", "FBA", "DL", "DEL4", 5, 1⟩,
      ⟨"A", "FBA", "DL", "DEL4", 10, 2⟩] "A" := by
  norm_num [stockBySku, specStockSku, specPairStock, specLatestDate,
    listMax]

/-- C1 (amended): current stock at every granularity (SKU, SKU + channel,
site) is the plain sum of `Ending Warehouse Balance` over all ledger rows
of the group — the snapshot date is never consulted, so every older
snapshot also contributes its full balance. -/
theorem stock_sums_all_snapshots (inv : List InvRow) (r : InvRow) :
    stockBySku (r :: inv) r.sku = r.balance + stockBySku inv r.sku ∧
    stockByFt (r :: inv) (r.sku, r.ft) =
      r.balance + stockByFt inv (r.sku, r.ft) ∧
    stockBySite (r :: inv) (r.sku, r.ft, r.shipFrom, r.wh) =
      r.balance + stockBySite inv (r.sku, r.ft, r.shipFrom, r.wh) ∧
    stockBySku ([] : List InvRow) r.sku = 0 := by
  refine ⟨?_, ?_, ?_, rfl⟩
  · simp [stockBySku, List.filter_cons]
  · simp [stockByFt, List.filter_cons]
  · simp [stockBySite, List.filter_cons]

end FBA
